import Mathlib

/-!
# Verification of the BM bus driver (bm_test_rpi)

A shallow embedding of the protocol layer of the battery-monitor (BM)
bus driver: CRC-8 framing, command construction, the chain-addressing
write sequence, and response decoding, together with theorems checking
the natural-language specification against the code.

Bytes are modelled as `Nat` (with `% 2 ^ w` at the points where the code
stores into fixed-width arrays); frames are `List Nat`; the serial
transport is modelled by passing the written/received byte sequences
explicitly.  Fallible receive paths return `Option`.
-/

/-- Modelled from the spec: the repository imports `crcCalcCRC8` from a
`crc8` module whose source is not part of the repository snapshot.  The
spec describes it as a standard CRC-8 over the first `len` bytes whose
defining property is that the CRC byte is the unique value making the
checksum over the full frame equal zero.  We model the standard
MSB-first CRC-8 (polynomial 0x07, init 0, no reflection, xorout 0),
which has exactly that property.  One polynomial-division step on an
8-bit state. -/
def crc8Step (s : Nat) : Nat :=
  if s &&& 0x80 = 0 then (s <<< 1) &&& 0xff else ((s <<< 1) ^^^ 0x07) &&& 0xff

/-- Eight polynomial-division steps applied to a state. -/
def crc8Bits : Nat → Nat → Nat
  | 0, s => s
  | n + 1, s => crc8Bits n (crc8Step s)

/-- Modelled from the spec: absorb one byte into the CRC-8 state (XOR in,
then eight polynomial steps). -/
def crc8Update (s b : Nat) : Nat := crc8Bits 8 (s ^^^ b)

/-- Modelled from the spec: `crcCalcCRC8(data, len)` — CRC-8 over the
first `len` bytes of `data`. -/
def crcCalcCRC8 (data : List Nat) (len : Nat) : Nat :=
  (data.take len).foldl crc8Update 0

-- ==================== Packet and command constants (controlFunctions.py) ====

def HEAD : Nat := 0x58
def GLOBAL_ADDR : Nat := 0xff
def DEFAULT_ADDR : Nat := 0xfe
def NO_BMS : Nat := 3
def BM_RESPONSE_LEN : Nat := 14

def CMD_TRIGGER : Nat := 0x32
def CMD_SET_ADDRESS : Nat := 0x3c
def CMD_AUTOADDR_DONE : Nat := 0x41
def CMD_GLOBAL_SNAPSHOT : Nat := 0x46
def CMD_SEND_SUMMARY : Nat := 0x50
def CMD_SEND_ALL_VOLTAGES_1 : Nat := 0xa0
def CMD_BALANCE_TARGET : Nat := 0xaa

/-- Address pool assigned to the three BMs (`addresses = [0xad, 0xbc, 0xde]`). -/
def addresses : List Nat := [0xad, 0xbc, 0xde]

/-- The idiom `cmd[7] = getCRC(cmd, 7)` used by every command builder:
set the trailing byte of an 8-byte command to the CRC-8 of its first
seven bytes. -/
def setCRC (f : List Nat) : List Nat := f.set 7 (crcCalcCRC8 f 7)

-- ==================== Command builders (controlFunctions.py) ================

/-- The frame written by `globalSnapshot(Ess_curr)`: the system current is
split into bytes and placed at payload positions 4 (LSB) and 5 (MSB),
then the trailing CRC is fixed. -/
def globalSnapshot (essCurr : Nat) : List Nat :=
  setCRC [HEAD, GLOBAL_ADDR, CMD_GLOBAL_SNAPSHOT, 0x00,
    essCurr &&& 0xff, (essCurr >>> 8) &&& 0xff, 0x00, 0xff]

/-- The `send_voltage` command written in iteration `j` of
`pollForVoltages`: the initial frame requests `CMD_SEND_ALL_VOLTAGES_1`
and byte 2 is overwritten with `CMD_SEND_ALL_VOLTAGES_1 + j` before the
CRC is fixed. -/
def send_voltage (address j : Nat) : List Nat :=
  setCRC (([HEAD, address, CMD_SEND_ALL_VOLTAGES_1,
    0x00, 0x00, 0x00, 0x00, 0xff]).set 2 (CMD_SEND_ALL_VOLTAGES_1 + j))

/-- The `send_summary` command frame built by `sendSummary(addr, Ess_curr)`. -/
def send_summary (addr essCurr : Nat) : List Nat :=
  setCRC [HEAD, addr, CMD_SEND_SUMMARY, 0x00,
    essCurr &&& 0xff, (essCurr >>> 8) &&& 0xff, 0x00, 0xff]

/-- The `balance_target` command frame built by `balanceTarget(addr, target)`:
`tg = target - 1` is split little-endian into payload bytes 4 and 5. -/
def balance_target (addr target : Nat) : List Nat :=
  setCRC [HEAD, addr, CMD_BALANCE_TARGET, 0x00,
    (target - 1) &&& 0xff, ((target - 1) >>> 8) &&& 0xff, 0x00, 0xff]

/-- `balanceTarget(addr, target)` on the real path: writes the
`balance_target` frame and computes the acknowledgment from the number
of reply bytes waiting in the input buffer
(`if addr != 0xff and inWaiting == 14: ack = True elif addr == 0xff:
ack = True else: ack = False`).  Returns the written frame and `ack`. -/
def balanceTarget (addr target inWaiting : Nat) : List Nat × Bool :=
  let frame := balance_target addr target
  (frame,
    if addr ≠ 0xff ∧ inWaiting = 14 then true
    else if addr = 0xff then true
    else false)

/-- `resetTarget(addr)`: delegates to `balanceTarget(addr, 4096)`. -/
def resetTarget (addr inWaiting : Nat) : List Nat × Bool :=
  balanceTarget addr 4096 inWaiting

-- ==================== Chain addressing (assignAddresses) ====================

/-- The `auto_addr_done_cmd` frame, CRC fixed at construction time. -/
def auto_addr_done_cmd : List Nat :=
  setCRC [HEAD, GLOBAL_ADDR, CMD_AUTOADDR_DONE, 0x00, 0x00, 0x00, 0x00, 0x00]

/-- Initial value of the mutable `trigger_cmd` array. -/
def trigger_cmd0 : List Nat :=
  [HEAD, DEFAULT_ADDR, CMD_TRIGGER, 0x00, 0x00, 0x00, 0x00, 0x00]

/-- Initial value of the mutable `global_set_addr_cmd` array. -/
def global_set_addr_cmd0 : List Nat :=
  [HEAD, GLOBAL_ADDR, CMD_SET_ADDRESS, DEFAULT_ADDR, 0x00, 0x00, 0x02, 0x00]

/-- One iteration of the `for i in range(NO_BMS)` loop of
`assignAddresses`.  The state is the pair of mutable command arrays
`(global_set_addr_cmd, trigger_cmd)` together with the list of frames
written to the serial port so far.  For `i = 0` the code writes the
updated set-address frame then the trigger frame; for `i >= 1` it
additionally re-targets the trigger frame at the previous board and
writes it a second time. -/
def assignStep (s : List Nat × List Nat × List (List Nat)) (i : Nat) :
    List Nat × List Nat × List (List Nat) :=
  let gsa := setCRC (s.1.set 3 (addresses.getD i 0))
  let tc := setCRC (s.2.1.set 1 (addresses.getD i 0))
  if i = 0 then
    (gsa, tc, s.2.2 ++ [gsa, tc])
  else
    let tc2 := setCRC (tc.set 1 (addresses.getD (i - 1) 0))
    (gsa, tc2, s.2.2 ++ [gsa, tc, tc2])

/-- The sequence of frames `assignAddresses()` writes to the serial port
(real path): the per-board loop followed by the single
`auto_addr_done_cmd` broadcast. -/
def assignAddresses : List (List Nat) :=
  ((List.range NO_BMS).foldl assignStep
    (global_set_addr_cmd0, trigger_cmd0, [])).2.2 ++ [auto_addr_done_cmd]

-- ==================== Response validation and decoding ======================

/-- The response guard used by `pollForVoltages` and `sendSummary`:
`len(bm_response_buffer) == BM_RESPONSE_LEN and
getCRC(bm_response_buffer, BM_RESPONSE_LEN) == 0`. -/
def frameOk (b : List Nat) : Bool :=
  b.length == BM_RESPONSE_LEN && crcCalcCRC8 b BM_RESPONSE_LEN == 0

/-- The four cell voltages `[cellA, cellB, cellC, cellD]` extracted from a
validated voltage response frame: for each cell the high byte is masked
with `0xff`, shifted left 8, and OR-ed with the low byte. -/
def decodeCellVoltages (b : List Nat) : List Nat :=
  [((b.getD 3 0) &&& 0xff) <<< 8 ||| b.getD 2 0,
   ((b.getD 5 0) &&& 0xff) <<< 8 ||| b.getD 4 0,
   ((b.getD 7 0) &&& 0xff) <<< 8 ||| b.getD 6 0,
   ((b.getD 9 0) &&& 0xff) <<< 8 ||| b.getD 8 0]

/-- The store loop `for k in range(4): allVoltages[j*4+k] = cellVoltages[k]`
(real path).  `allVoltages` is a `np.uint16` array, so stores are taken
modulo `2 ^ 16`. -/
def storeGroup (acc : List Nat) (j : Nat) (vs : List Nat) : List Nat :=
  (List.range 4).foldl (fun a k => a.set (j * 4 + k) (vs.getD k 0 % 65536)) acc

/-- One iteration of the real-path receive loop of `pollForVoltages`: if
the response passes the guard, decode and store the group's four cells;
otherwise only an error is printed and `allVoltages` is untouched. -/
def pollGroup (acc : List Nat) (j : Nat) (b : List Nat) : List Nat :=
  if frameOk b then storeGroup acc j (decodeCellVoltages b) else acc

/-- The real path of `pollForVoltages`, as a function of the three
response buffers read for `j = 0, 1, 2`.  `allVoltages` starts as
`np.zeros(12, dtype=np.uint16)`. -/
def pollForVoltagesReal (f0 f1 f2 : List Nat) : List Nat :=
  pollGroup (pollGroup (pollGroup (List.replicate 12 0) 0 f0) 1 f1) 2 f2

/-- One iteration of the simulated-path receive loop of
`pollForVoltages`, as a function of the (in the code, randomly
generated) response buffer: identical to `pollGroup` except that the
store is `cellVoltages[k] + 1`. -/
def pollGroupSim (acc : List Nat) (j : Nat) (b : List Nat) : List Nat :=
  if frameOk b then
    (List.range 4).foldl
      (fun a k => a.set (j * 4 + k) (((decodeCellVoltages b).getD k 0 + 1) % 65536)) acc
  else acc

/-- The simulated path of `pollForVoltages`, as a function of the three
response buffers processed for `j = 0, 1, 2`. -/
def pollForVoltagesSim (f0 f1 f2 : List Nat) : List Nat :=
  pollGroupSim (pollGroupSim (pollGroupSim (List.replicate 12 0) 0 f0) 1 f1) 2 f2

/-- The eight summary fields
`[minV, minVLoc, maxV, maxVLoc, avgV, temp1, temp2, status]` extracted
from a validated summary response frame by `sendSummary`. -/
def summaryFields (b : List Nat) : List Nat :=
  [((b.getD 3 0) &&& 0xff) <<< 8 ||| ((b.getD 2 0) &&& 0xff),
   (b.getD 8 0) &&& 0xf,
   ((b.getD 5 0) &&& 0xff) <<< 8 ||| ((b.getD 4 0) &&& 0xff),
   ((b.getD 8 0) >>> 4) &&& 0xf,
   ((b.getD 7 0) &&& 0xff) <<< 8 ||| ((b.getD 6 0) &&& 0xff),
   ((b.getD 10 0) &&& 0xf) <<< 8 ||| ((b.getD 9 0) &&& 0xff),
   ((b.getD 11 0) &&& 0xff) <<< 4 ||| ((b.getD 10 0) >>> 4),
   b.getD 12 0]

/-- The receive half of `sendSummary` (real path), as a function of the
response buffer read from the serial port: the summary fields are
extracted when the guard passes, otherwise only an error is printed and
no field is interpreted (`none`). -/
def sendSummary (b : List Nat) : Option (List Nat) :=
  if frameOk b then some (summaryFields b) else none

/-- The per-board row update performed by `controlModule.py`:
`battery_voltages[i,:] = volt` where `volt = pollForVoltages(...)`.  The
row is overwritten with the freshly computed vector; the previous row
contents do not enter into the result. -/
def batteryVoltagesRow (_prev f0 f1 f2 : List Nat) : List Nat :=
  pollForVoltagesReal f0 f1 f2

-- ==================== CRC helper lemmas =====================================

set_option maxRecDepth 4096 in
theorem and255_all : ∀ x < 256, x &&& 255 = x := by decide

theorem and255 {x : Nat} (h : x < 256) : x &&& 255 = x := and255_all x h

theorem and15_all : ∀ x < 16, x &&& 15 = x := by decide

theorem and15 {x : Nat} (h : x < 16) : x &&& 15 = x := and15_all x h

theorem getD_lt_of_mem {b : List Nat} (h : ∀ x ∈ b, x < 256) :
    ∀ i, b.getD i 0 < 256 := by
  induction b with
  | nil =>
    intro i
    rw [show ([] : List Nat).getD i 0 = 0 from by cases i <;> rfl]
    omega
  | cons x xs ih =>
    intro i
    cases i with
    | zero => exact h x (by simp)
    | succ n =>
      simp only [List.getD_cons_succ]
      exact ih (fun y hy => h y (by simp [hy])) n

/-- The value stored for one cell by the real path, with its `uint16`
store, equals the little-endian claim formula for byte values. -/
theorem decodeStore_val {x y : Nat} (hx : x < 256) (hy : y < 256) :
    ((y &&& 255) <<< 8 ||| x) % 65536 = x ||| (y <<< 8) := by
  have hb : y <<< 8 ||| x < 2 ^ (8 + 8) := Nat.append_lt hx hy
  have hb2 : y <<< 8 ||| x < 65536 := by norm_num at hb; exact hb
  rw [and255 hy, Nat.mod_eq_of_lt hb2, Nat.lor_comm]

theorem range4_eq : List.range 4 = [0, 1, 2, 3] := by decide

theorem crc8Update_self (c : Nat) : crc8Update c c = 0 := by
  show crc8Bits 8 (c ^^^ c) = 0
  rw [Nat.xor_self]
  decide

/-- Fixing the trailing CRC byte of an 8-byte command makes the CRC-8 over
the whole frame zero. -/
theorem crcCalcCRC8_setCRC (a b c d e f g h : Nat) :
    crcCalcCRC8 (setCRC [a, b, c, d, e, f, g, h]) 8 = 0 := by
  show crcCalcCRC8 [a, b, c, d, e, f, g,
      crcCalcCRC8 [a, b, c, d, e, f, g, h] 7] 8 = 0
  show List.foldl crc8Update 0 [a, b, c, d, e, f, g,
      crcCalcCRC8 [a, b, c, d, e, f, g, h] 7] = 0
  show crc8Update (List.foldl crc8Update 0 [a, b, c, d, e, f, g])
      (crcCalcCRC8 [a, b, c, d, e, f, g, h] 7) = 0
  show crc8Update (List.foldl crc8Update 0 [a, b, c, d, e, f, g])
      (List.foldl crc8Update 0 [a, b, c, d, e, f, g]) = 0
  exact crc8Update_self _

-- ==================== Claim theorems ========================================

set_option maxRecDepth 10000 in
/-- C9: every command frame built by the dispatcher (balance target,
summary, voltage request, snapshot, and the addressing commands) has its
trailing byte set to the CRC-8 of the first 7 bytes, after which the
CRC-8 checksum computed over the full 8-byte frame equals zero. -/
theorem builtCommands_crc_zero :
    (∀ addr target, crcCalcCRC8 (balance_target addr target) 8 = 0)
    ∧ (∀ addr essCurr, crcCalcCRC8 (send_summary addr essCurr) 8 = 0)
    ∧ (∀ addr j, crcCalcCRC8 (send_voltage addr j) 8 = 0)
    ∧ (∀ essCurr, crcCalcCRC8 (globalSnapshot essCurr) 8 = 0)
    ∧ assignAddresses.all (fun f => crcCalcCRC8 f 8 == 0) = true :=
  ⟨fun _ _ => crcCalcCRC8_setCRC _ _ _ _ _ _ _ _,
   fun _ _ => crcCalcCRC8_setCRC _ _ _ _ _ _ _ _,
   fun _ _ => crcCalcCRC8_setCRC _ _ _ _ _ _ _ _,
   fun _ => crcCalcCRC8_setCRC _ _ _ _ _ _ _ _,
   by decide⟩

set_option maxRecDepth 10000 in
/-- C4 (counterexample): the first frame written by `assignAddresses` is
the `SET_ADDRESS` command carrying board 0's new address 0xAD, and its
address byte (frame byte 1) is not the DEFAULT address 0xFE — the code
targets `SET_ADDRESS` at GLOBAL (0xFF). -/
theorem setAddress_default_counterexample :
    (assignAddresses.getD 0 []).getD 2 0 = CMD_SET_ADDRESS
    ∧ (assignAddresses.getD 0 []).getD 3 0 = addresses.getD 0 0
    ∧ (assignAddresses.getD 0 []).getD 1 0 ≠ DEFAULT_ADDR := by decide

set_option maxRecDepth 10000 in
/-- C4 (amended): every `SET_ADDRESS` command frame written during the
chain-addressing sequence has its address byte (frame byte 1) equal to
the GLOBAL address 0xFF, not the DEFAULT address 0xFE; the new address
is carried in payload byte 3. -/
theorem setAddress_targets_global :
    ∀ f ∈ assignAddresses, f.getD 2 0 = CMD_SET_ADDRESS →
      f.getD 1 0 = GLOBAL_ADDR := by decide

set_option maxRecDepth 10000 in
theorem setAddress_targets_global_witness :
    ([0x58, 0xff, 0x3c, 0xad, 0x00, 0x00, 0x02, 28] : List Nat).getD 1 0 = GLOBAL_ADDR :=
  setAddress_targets_global [0x58, 0xff, 0x3c, 0xad, 0x00, 0x00, 0x02, 28]
    (by decide) (by decide)

set_option maxRecDepth 10000 in
/-- C5: over the 3-board configuration, the `SET_ADDRESS` frames written
by `assignAddresses` carry 0xAD, 0xBC, 0xDE in chain order; each is
immediately followed by a `TRIGGER` frame addressed to that board; and
the write sequence contains exactly one `AUTOADDR_DONE` frame, which is
the final (9th) frame written and is addressed to GLOBAL (0xFF). -/
theorem addressing_write_sequence :
    ((assignAddresses.filter fun f => f.getD 2 0 == CMD_SET_ADDRESS).map
        fun f => f.getD 3 0) = addresses
    ∧ ((assignAddresses.getD 0 []).getD 2 0 = CMD_SET_ADDRESS
        ∧ (assignAddresses.getD 1 []).getD 2 0 = CMD_TRIGGER
        ∧ (assignAddresses.getD 1 []).getD 1 0 = addresses.getD 0 0)
    ∧ ((assignAddresses.getD 2 []).getD 2 0 = CMD_SET_ADDRESS
        ∧ (assignAddresses.getD 3 []).getD 2 0 = CMD_TRIGGER
        ∧ (assignAddresses.getD 3 []).getD 1 0 = addresses.getD 1 0)
    ∧ ((assignAddresses.getD 5 []).getD 2 0 = CMD_SET_ADDRESS
        ∧ (assignAddresses.getD 6 []).getD 2 0 = CMD_TRIGGER
        ∧ (assignAddresses.getD 6 []).getD 1 0 = addresses.getD 2 0)
    ∧ (assignAddresses.filter fun f => f.getD 2 0 == CMD_AUTOADDR_DONE).length = 1
    ∧ assignAddresses.length = 9
    ∧ assignAddresses.getD 8 [] = auto_addr_done_cmd
    ∧ auto_addr_done_cmd.getD 2 0 = CMD_AUTOADDR_DONE
    ∧ auto_addr_done_cmd.getD 1 0 = GLOBAL_ADDR := by decide

/-- C6: for every address and every target of at least 1 millivolt, the
`balance_target` frame encodes `target - 1` little-endian in payload
bytes 4 (low byte) and 5 (high byte); in particular for target 3300 the
two bytes reassemble to the 16-bit value 3299. -/
theorem balance_target_encodes_minus_one (addr target : Nat) (_h : 1 ≤ target) :
    (balance_target addr target).getD 4 0 = (target - 1) &&& 0xff
    ∧ (balance_target addr target).getD 5 0 = ((target - 1) >>> 8) &&& 0xff
    ∧ (balance_target 0xad 3300).getD 4 0
        ||| ((balance_target 0xad 3300).getD 5 0 <<< 8) = 3299 :=
  ⟨rfl, rfl, by decide⟩

theorem balance_target_encodes_minus_one_witness :
    (balance_target 0xad 3300).getD 4 0 = (3300 - 1) &&& 0xff
    ∧ (balance_target 0xad 3300).getD 5 0 = ((3300 - 1) >>> 8) &&& 0xff
    ∧ (balance_target 0xad 3300).getD 4 0
        ||| ((balance_target 0xad 3300).getD 5 0 <<< 8) = 3299 :=
  balance_target_encodes_minus_one 0xad 3300 (by decide)

/-- C7: `balanceTarget` acknowledges every broadcast call (address 0xFF)
with `True` regardless of the transport state; a targeted call is
acknowledged `True` exactly when 14 reply bytes are waiting in the input
buffer after the send; and `resetTarget(addr)` returns exactly
`balanceTarget(addr, 4096)`. -/
theorem balanceTarget_ack_spec (addr target inWaiting : Nat) :
    (balanceTarget 0xff target inWaiting).2 = true
    ∧ (addr ≠ 0xff → ((balanceTarget addr target inWaiting).2 = true ↔ inWaiting = 14))
    ∧ resetTarget addr inWaiting = balanceTarget addr 4096 inWaiting := by
  refine ⟨by simp [balanceTarget], ?_, rfl⟩
  intro h
  simp [balanceTarget, h]

theorem balanceTarget_ack_spec_witness :
    (balanceTarget 0xff 3300 0).2 = true
    ∧ ((balanceTarget 0xad 3300 14).2 = true ↔ (14 : Nat) = 14)
    ∧ resetTarget 0xad 0 = balanceTarget 0xad 4096 0 :=
  ⟨(balanceTarget_ack_spec 0xad 3300 0).1,
   (balanceTarget_ack_spec 0xad 3300 14).2.1 (by decide),
   (balanceTarget_ack_spec 0xad 3300 0).2.2⟩
/-- C1: for every 14-byte response frame that passes validation (length
14, CRC-8 over all 14 bytes equal to zero), the summary decode in
`sendSummary` returns the fields in the order (minVoltage,
minVoltageCellIndex, maxVoltage, maxVoltageCellIndex, avgVoltage, temp1,
temp2, status) with minVoltage, maxVoltage, avgVoltage little-endian at
byte pairs (2,3), (4,5), (6,7); cell indices in the low/high nibble of
byte 8; temp1 from byte 9 plus the low nibble of byte 10; temp2 from the
high nibble of byte 10 plus byte 11; status byte 12 unchanged. -/
theorem sendSummary_decode_fields
    (b0 b1 b2 b3 b4 b5 b6 b7 b8 b9 b10 b11 b12 b13 : Nat)
    (hb : ∀ x ∈ [b0, b1, b2, b3, b4, b5, b6, b7, b8, b9, b10, b11, b12, b13], x < 256)
    (hcrc : crcCalcCRC8 [b0, b1, b2, b3, b4, b5, b6, b7, b8, b9, b10, b11, b12, b13] 14 = 0) :
    sendSummary [b0, b1, b2, b3, b4, b5, b6, b7, b8, b9, b10, b11, b12, b13] =
      some [b2 ||| (b3 <<< 8), b8 &&& 0xf, b4 ||| (b5 <<< 8), b8 >>> 4,
        b6 ||| (b7 <<< 8), b9 ||| ((b10 &&& 0xf) <<< 8),
        (b10 >>> 4) ||| (b11 <<< 4), b12] := by
  simp only [List.mem_cons, List.not_mem_nil, or_false, forall_eq_or_imp, forall_eq] at hb
  obtain ⟨-, -, h2, h3, h4, h5, h6, h7, h8, h9, -, h11, -, -⟩ := hb
  have hok : frameOk [b0, b1, b2, b3, b4, b5, b6, b7, b8, b9, b10, b11, b12, b13] = true := by
    simp [frameOk, BM_RESPONSE_LEN, hcrc]
  rw [sendSummary, hok, if_pos rfl]
  simp only [summaryFields, List.getD_cons_zero, List.getD_cons_succ]
  have h84 : b8 >>> 4 < 16 := by
    rw [Nat.shiftRight_eq_div_pow]
    omega
  rw [and255 h2, and255 h3, and255 h4, and255 h5, and255 h6, and255 h7,
    and255 h9, and255 h11, and15 h84, Nat.lor_comm (b3 <<< 8) b2,
    Nat.lor_comm (b5 <<< 8) b4, Nat.lor_comm (b7 <<< 8) b6,
    Nat.lor_comm ((b10 &&& 15) <<< 8) b9, Nat.lor_comm (b11 <<< 4) (b10 >>> 4)]
set_option maxRecDepth 10000 in
theorem sendSummary_decode_fields_witness :
    sendSummary [0x58, 0xad, 0xb8, 0x0b, 0xac, 0x0d, 0xb2, 0x0c, 0x93, 0xfa,
        0x14, 0x2c, 0x05, 59] =
      some [0xb8 ||| (0x0b <<< 8), 0x93 &&& 0xf, 0xac ||| (0x0d <<< 8), 0x93 >>> 4,
        0xb2 ||| (0x0c <<< 8), 0xfa ||| ((0x14 &&& 0xf) <<< 8),
        (0x14 >>> 4) ||| (0x2c <<< 4), 0x05] :=
  sendSummary_decode_fields 0x58 0xad 0xb8 0x0b 0xac 0x0d 0xb2 0x0c 0x93 0xfa
    0x14 0x2c 0x05 59 (by decide) (by decide)

/-- C3: telemetry fields are extracted from a received byte sequence if
and only if it is exactly 14 bytes long and the CRC-8 over all 14 bytes
is zero: `sendSummary` yields a summary exactly under that guard, and
the voltage receive step `pollGroup` stores the decoded group exactly
under that guard and leaves `allVoltages` untouched otherwise. -/
theorem telemetry_requires_validation (b : List Nat) :
    ((sendSummary b).isSome = true ↔ b.length = 14 ∧ crcCalcCRC8 b 14 = 0)
    ∧ (∀ acc j,
        (b.length = 14 ∧ crcCalcCRC8 b 14 = 0 →
          pollGroup acc j b = storeGroup acc j (decodeCellVoltages b))
        ∧ (¬(b.length = 14 ∧ crcCalcCRC8 b 14 = 0) → pollGroup acc j b = acc)) := by
  have hiff : frameOk b = true ↔ (b.length = 14 ∧ crcCalcCRC8 b 14 = 0) := by
    simp [frameOk, BM_RESPONSE_LEN]
  constructor
  · cases hfo : frameOk b with
    | true => simp [sendSummary, hfo, hiff.mp hfo]
    | false =>
      have : ¬(b.length = 14 ∧ crcCalcCRC8 b 14 = 0) := fun hc => by
        rw [hiff.mpr hc] at hfo; cases hfo
      simp [sendSummary, hfo, this]
  · intro acc j
    cases hfo : frameOk b with
    | true => simp [pollGroup, hfo, hiff.mp hfo]
    | false =>
      have : ¬(b.length = 14 ∧ crcCalcCRC8 b 14 = 0) := fun hc => by
        rw [hiff.mpr hc] at hfo; cases hfo
      simp [pollGroup, hfo, this]

set_option maxRecDepth 10000 in
theorem telemetry_requires_validation_witness :
    pollGroup (List.replicate 12 0) 0
        [0x58, 0xad, 7, 1, 9, 2, 11, 3, 13, 4, 0, 0, 0, 219] =
      storeGroup (List.replicate 12 0) 0
        (decodeCellVoltages [0x58, 0xad, 7, 1, 9, 2, 11, 3, 13, 4, 0, 0, 0, 219]) :=
  ((telemetry_requires_validation
      [0x58, 0xad, 7, 1, 9, 2, 11, 3, 13, 4, 0, 0, 0, 219]).2
    (List.replicate 12 0) 0).1 (by decide)

-- ==================== Indexing lemmas for the voltage store ================

theorem getD_set_self {l : List Nat} {i : Nat} (a : Nat) (h : i < l.length) :
    (l.set i a).getD i 0 = a := by
  simp [List.getElem?_set_self h]

theorem getD_set_ne {l : List Nat} {i j : Nat} (a : Nat) (h : i ≠ j) :
    (l.set i a).getD j 0 = l.getD j 0 := by
  simp [List.getElem?_set_ne h]

theorem getD_replicate0 (i : Nat) : (List.replicate 12 (0 : Nat)).getD i 0 = 0 := by
  rcases Nat.lt_or_ge i 12 with h | h
  · rw [List.getD_eq_getElem?_getD, List.getElem?_replicate, if_pos h]
    rfl
  · rw [List.getD_eq_getElem?_getD, List.getElem?_eq_none (by simpa using h)]
    rfl

theorem storeGroup_eq (acc vs : List Nat) (j : Nat) :
    storeGroup acc j vs =
      (((acc.set (j * 4) (vs.getD 0 0 % 65536)).set (j * 4 + 1) (vs.getD 1 0 % 65536)).set
        (j * 4 + 2) (vs.getD 2 0 % 65536)).set (j * 4 + 3) (vs.getD 3 0 % 65536) := by
  simp [storeGroup, range4_eq]

theorem getD_storeGroup_self (acc vs : List Nat) (j k : Nat) (hk : k < 4)
    (h : j * 4 + 3 < acc.length) :
    (storeGroup acc j vs).getD (j * 4 + k) 0 = vs.getD k 0 % 65536 := by
  rw [storeGroup_eq]
  have hidx : j * 4 + 0 = j * 4 := Nat.add_zero _
  interval_cases k
  · rw [getD_set_ne _ (by omega), getD_set_ne _ (by omega), getD_set_ne _ (by omega),
      hidx, getD_set_self _ (by omega)]
  · rw [getD_set_ne _ (by omega), getD_set_ne _ (by omega),
      getD_set_self _ (by simp only [List.length_set]; omega)]
  · rw [getD_set_ne _ (by omega),
      getD_set_self _ (by simp only [List.length_set]; omega)]
  · rw [getD_set_self _ (by simp only [List.length_set]; omega)]

theorem getD_storeGroup_out (acc vs : List Nat) (j i : Nat)
    (h : i < j * 4 ∨ j * 4 + 3 < i) :
    (storeGroup acc j vs).getD i 0 = acc.getD i 0 := by
  rw [storeGroup_eq, getD_set_ne _ (by omega), getD_set_ne _ (by omega),
    getD_set_ne _ (by omega), getD_set_ne _ (by omega)]

theorem pollGroup_ok {b : List Nat} (acc : List Nat) (j : Nat)
    (h : frameOk b = true) :
    pollGroup acc j b = storeGroup acc j (decodeCellVoltages b) := by
  simp [pollGroup, h]

theorem pollGroup_not_ok {b : List Nat} (acc : List Nat) (j : Nat)
    (h : frameOk b = false) : pollGroup acc j b = acc := by
  simp [pollGroup, h]

theorem getD_pollGroup_out (acc : List Nat) (j : Nat) (b : List Nat) (i : Nat)
    (h : i < j * 4 ∨ j * 4 + 3 < i) :
    (pollGroup acc j b).getD i 0 = acc.getD i 0 := by
  rw [pollGroup]
  split
  · exact getD_storeGroup_out acc _ j i h
  · rfl

theorem length_storeGroup (acc vs : List Nat) (j : Nat) :
    (storeGroup acc j vs).length = acc.length := by
  simp [storeGroup, range4_eq]

theorem length_pollGroup (acc : List Nat) (j : Nat) (b : List Nat) :
    (pollGroup acc j b).length = acc.length := by
  rw [pollGroup]
  split
  · exact length_storeGroup acc (decodeCellVoltages b) j
  · rfl

theorem length_pollForVoltagesReal (f0 f1 f2 : List Nat) :
    (pollForVoltagesReal f0 f1 f2).length = 12 := by
  simp [pollForVoltagesReal, length_pollGroup]

theorem pollGroupSim_eq (acc b : List Nat) (j : Nat) (h : frameOk b = true) :
    pollGroupSim acc j b =
      (((acc.set (j * 4) (((decodeCellVoltages b).getD 0 0 + 1) % 65536)).set
          (j * 4 + 1) (((decodeCellVoltages b).getD 1 0 + 1) % 65536)).set
          (j * 4 + 2) (((decodeCellVoltages b).getD 2 0 + 1) % 65536)).set
          (j * 4 + 3) (((decodeCellVoltages b).getD 3 0 + 1) % 65536) := by
  simp [pollGroupSim, h, range4_eq]

theorem getD_pollGroupSim_self (acc b : List Nat) (j k : Nat) (hk : k < 4)
    (h : j * 4 + 3 < acc.length) (hok : frameOk b = true) :
    (pollGroupSim acc j b).getD (j * 4 + k) 0 =
      ((decodeCellVoltages b).getD k 0 + 1) % 65536 := by
  rw [pollGroupSim_eq acc b j hok]
  have hidx : j * 4 + 0 = j * 4 := Nat.add_zero _
  interval_cases k
  · rw [getD_set_ne _ (by omega), getD_set_ne _ (by omega), getD_set_ne _ (by omega),
      hidx, getD_set_self _ (by omega)]
  · rw [getD_set_ne _ (by omega), getD_set_ne _ (by omega),
      getD_set_self _ (by simp only [List.length_set]; omega)]
  · rw [getD_set_ne _ (by omega),
      getD_set_self _ (by simp only [List.length_set]; omega)]
  · rw [getD_set_self _ (by simp only [List.length_set]; omega)]

theorem getD_pollGroupSim_out (acc b : List Nat) (j i : Nat)
    (h : i < j * 4 ∨ j * 4 + 3 < i) :
    (pollGroupSim acc j b).getD i 0 = acc.getD i 0 := by
  rw [pollGroupSim]
  split
  · simp only [range4_eq, List.foldl_cons, List.foldl_nil]
    rw [getD_set_ne _ (by omega), getD_set_ne _ (by omega), getD_set_ne _ (by omega),
      getD_set_ne _ (by omega)]
  · rfl

theorem length_pollGroupSim (acc : List Nat) (j : Nat) (b : List Nat) :
    (pollGroupSim acc j b).length = acc.length := by
  rw [pollGroupSim]
  split
  · simp [range4_eq]
  · rfl

/-- C2: for every group index j < 3 and cell index k < 4, if the j-th
response frame passes validation then the 12-element result of
`pollForVoltages` (real path) holds at index 4j+k the little-endian
16-bit value formed from bytes 2+2k (low) and 3+2k (high) of that frame,
so the three 4-cell groups occupy indices [4j, 4j+4) in request order. -/
theorem pollForVoltages_group_decode (f0 f1 f2 : List Nat) (j k : Nat)
    (hj : j < 3) (hk : k < 4)
    (hok : frameOk ([f0, f1, f2].getD j []) = true)
    (hb : ∀ x ∈ [f0, f1, f2].getD j [], x < 256) :
    (pollForVoltagesReal f0 f1 f2).length = 12
    ∧ (pollForVoltagesReal f0 f1 f2).getD (4 * j + k) 0 =
        ([f0, f1, f2].getD j []).getD (2 + 2 * k) 0
          ||| (([f0, f1, f2].getD j []).getD (3 + 2 * k) 0 <<< 8) := by
  refine ⟨length_pollForVoltagesReal f0 f1 f2, ?_⟩
  have hidx : 4 * j + k = j * 4 + k := by omega
  rw [hidx]
  have hval : ∀ b : List Nat, (∀ x ∈ b, x < 256) →
      (decodeCellVoltages b).getD k 0 % 65536 =
        b.getD (2 + 2 * k) 0 ||| (b.getD (3 + 2 * k) 0 <<< 8) := by
    intro b hb2
    interval_cases k <;>
      (simp only [decodeCellVoltages, List.getD_cons_zero, List.getD_cons_succ];
       exact decodeStore_val (getD_lt_of_mem hb2 _) (getD_lt_of_mem hb2 _))
  interval_cases j
  · simp only [List.getD_cons_zero] at hok hb
    simp only [pollForVoltagesReal]
    rw [getD_pollGroup_out _ 2 f2 _ (by omega), getD_pollGroup_out _ 1 f1 _ (by omega),
      pollGroup_ok _ _ hok,
      getD_storeGroup_self _ _ _ _ hk (by simp only [List.length_replicate]; omega)]
    exact hval f0 hb
  · simp only [List.getD_cons_zero, List.getD_cons_succ] at hok hb
    simp only [pollForVoltagesReal]
    rw [getD_pollGroup_out _ 2 f2 _ (by omega), pollGroup_ok _ _ hok,
      getD_storeGroup_self _ _ _ _ hk
        (by simp only [length_pollGroup, List.length_replicate]; omega)]
    exact hval f1 hb
  · simp only [List.getD_cons_zero, List.getD_cons_succ] at hok hb
    simp only [pollForVoltagesReal]
    rw [pollGroup_ok _ _ hok,
      getD_storeGroup_self _ _ _ _ hk
        (by simp only [length_pollGroup, List.length_replicate]; omega)]
    exact hval f2 hb

set_option maxRecDepth 10000 in
theorem pollForVoltages_group_decode_witness :
    (pollForVoltagesReal [0x58, 0xad, 7, 1, 9, 2, 11, 3, 13, 4, 0, 0, 0, 219] [] []).length = 12
    ∧ (pollForVoltagesReal [0x58, 0xad, 7, 1, 9, 2, 11, 3, 13, 4, 0, 0, 0, 219] [] []).getD
          (4 * 0 + 0) 0 =
        (([[0x58, 0xad, 7, 1, 9, 2, 11, 3, 13, 4, 0, 0, 0, 219], [], []] :
            List (List Nat)).getD 0 []).getD (2 + 2 * 0) 0
          ||| ((([[0x58, 0xad, 7, 1, 9, 2, 11, 3, 13, 4, 0, 0, 0, 219], [], []] :
            List (List Nat)).getD 0 []).getD (3 + 2 * 0) 0 <<< 8) :=
  pollForVoltages_group_decode [0x58, 0xad, 7, 1, 9, 2, 11, 3, 13, 4, 0, 0, 0, 219] [] []
    0 0 (by decide) (by decide) (by decide) (by decide)

set_option maxRecDepth 10000 in
/-- C8 (counterexample): a failed response frame does not leave the
previously stored telemetry unchanged: `pollForVoltages` returns a fresh
zero-initialized vector and `controlModule` overwrites the board's row
with it, so a stored value 3300 becomes 0 after a cycle in which every
frame fails validation. -/
theorem battery_row_overwritten_counterexample :
    frameOk [] = false
    ∧ (batteryVoltagesRow (List.replicate 12 3300) [] [] []).getD 0 0 = 0
    ∧ (List.replicate 12 3300 : List Nat).getD 0 0 = 3300
    ∧ batteryVoltagesRow (List.replicate 12 3300) [] [] [] ≠ List.replicate 12 3300 := by
  decide

/-- C8 (amended): if the j-th response frame of a poll cycle fails the
length or CRC check, the four entries of that group stay at the fresh
vector's initial value 0 (no decoded data is stored for it), the loop
continues and still produces a 12-entry row, and `controlModule`
overwrites the board's previous row with this fresh vector rather than
leaving it unchanged. -/
theorem pollFailure_leaves_zero (prev f0 f1 f2 : List Nat) (j k : Nat)
    (hj : j < 3) (hk : k < 4)
    (hbad : frameOk ([f0, f1, f2].getD j []) = false) :
    (batteryVoltagesRow prev f0 f1 f2).getD (4 * j + k) 0 = 0
    ∧ batteryVoltagesRow prev f0 f1 f2 = pollForVoltagesReal f0 f1 f2 := by
  refine ⟨?_, rfl⟩
  have hidx : 4 * j + k = j * 4 + k := by omega
  rw [hidx]
  interval_cases j
  · simp only [List.getD_cons_zero] at hbad
    simp only [batteryVoltagesRow, pollForVoltagesReal]
    rw [getD_pollGroup_out _ 2 f2 _ (by omega), getD_pollGroup_out _ 1 f1 _ (by omega),
      pollGroup_not_ok _ _ hbad, getD_replicate0]
  · simp only [List.getD_cons_zero, List.getD_cons_succ] at hbad
    simp only [batteryVoltagesRow, pollForVoltagesReal]
    rw [getD_pollGroup_out _ 2 f2 _ (by omega), pollGroup_not_ok _ _ hbad,
      getD_pollGroup_out _ 0 f0 _ (by omega), getD_replicate0]
  · simp only [List.getD_cons_zero, List.getD_cons_succ] at hbad
    simp only [batteryVoltagesRow, pollForVoltagesReal]
    rw [pollGroup_not_ok _ _ hbad, getD_pollGroup_out _ 1 f1 _ (by omega),
      getD_pollGroup_out _ 0 f0 _ (by omega), getD_replicate0]

theorem pollFailure_leaves_zero_witness :
    (batteryVoltagesRow (List.replicate 12 3300) [] [] []).getD (4 * 0 + 0) 0 = 0
    ∧ batteryVoltagesRow (List.replicate 12 3300) [] [] [] =
        pollForVoltagesReal [] [] [] :=
  pollFailure_leaves_zero (List.replicate 12 3300) [] [] [] 0 0
    (by decide) (by decide) (by decide)

set_option maxRecDepth 10000 in
/-- C10 (counterexample): the two decode paths do not always differ by
exactly 1 on the same validated frame: on the frame whose payload bytes
2..9 are all 0xFF (decoded cell value 65535), the simulated path's
uint16 store wraps 65535 + 1 to 0 while the real path stores 65535, so
neither result is the other plus one. -/
theorem sim_real_not_offset_by_one :
    frameOk [0x58, 0xad, 255, 255, 255, 255, 255, 255, 255, 255, 0, 0, 0, 18] = true
    ∧ (pollForVoltagesSim
        [0x58, 0xad, 255, 255, 255, 255, 255, 255, 255, 255, 0, 0, 0, 18] [] []).getD 0 0 = 0
    ∧ (pollForVoltagesReal
        [0x58, 0xad, 255, 255, 255, 255, 255, 255, 255, 255, 0, 0, 0, 18] [] []).getD 0 0 = 65535
    ∧ ¬((pollForVoltagesSim
          [0x58, 0xad, 255, 255, 255, 255, 255, 255, 255, 255, 0, 0, 0, 18] [] []).getD 0 0 =
        (pollForVoltagesReal
          [0x58, 0xad, 255, 255, 255, 255, 255, 255, 255, 255, 0, 0, 0, 18] [] []).getD 0 0 + 1
      ∨ (pollForVoltagesReal
          [0x58, 0xad, 255, 255, 255, 255, 255, 255, 255, 255, 0, 0, 0, 18] [] []).getD 0 0 =
        (pollForVoltagesSim
          [0x58, 0xad, 255, 255, 255, 255, 255, 255, 255, 255, 0, 0, 0, 18] [] []).getD 0 0 + 1) := by
  decide

/-- C10 (amended): the simulated and real voltage-decoding paths of
`pollForVoltages` are not equivalent: on the same validated response
frame, for every filled entry the simulated path stores the decoded cell
voltage plus 1 reduced modulo 2^16 (the uint16 store), while the real
path stores the decoded value itself; the entries differ by exactly 1
except when the decoded value is 65535, where the simulated store wraps
to 0. -/
theorem sim_adds_one_mod (f0 f1 f2 : List Nat) (j k : Nat)
    (hj : j < 3) (hk : k < 4)
    (hok : frameOk ([f0, f1, f2].getD j []) = true) :
    (pollForVoltagesSim f0 f1 f2).getD (4 * j + k) 0 =
      ((pollForVoltagesReal f0 f1 f2).getD (4 * j + k) 0 + 1) % 65536 := by
  have hidx : 4 * j + k = j * 4 + k := by omega
  rw [hidx]
  interval_cases j
  · simp only [List.getD_cons_zero] at hok
    simp only [pollForVoltagesSim, pollForVoltagesReal]
    rw [getD_pollGroupSim_out _ f2 2 _ (by omega), getD_pollGroupSim_out _ f1 1 _ (by omega),
      getD_pollGroup_out _ 2 f2 _ (by omega), getD_pollGroup_out _ 1 f1 _ (by omega),
      getD_pollGroupSim_self _ f0 0 k hk (by simp only [List.length_replicate]; omega) hok,
      pollGroup_ok _ _ hok,
      getD_storeGroup_self _ _ _ _ hk (by simp only [List.length_replicate]; omega)]
    omega
  · simp only [List.getD_cons_zero, List.getD_cons_succ] at hok
    simp only [pollForVoltagesSim, pollForVoltagesReal]
    rw [getD_pollGroupSim_out _ f2 2 _ (by omega), getD_pollGroup_out _ 2 f2 _ (by omega),
      getD_pollGroupSim_self _ f1 1 k hk
        (by simp only [length_pollGroupSim, List.length_replicate]; omega) hok,
      pollGroup_ok _ _ hok,
      getD_storeGroup_self _ _ _ _ hk
        (by simp only [length_pollGroup, List.length_replicate]; omega)]
    omega
  · simp only [List.getD_cons_zero, List.getD_cons_succ] at hok
    simp only [pollForVoltagesSim, pollForVoltagesReal]
    rw [getD_pollGroupSim_self _ f2 2 k hk
        (by simp only [length_pollGroupSim, List.length_replicate]; omega) hok,
      pollGroup_ok _ _ hok,
      getD_storeGroup_self _ _ _ _ hk
        (by simp only [length_pollGroup, List.length_replicate]; omega)]
    omega

set_option maxRecDepth 10000 in
theorem sim_adds_one_mod_witness :
    (pollForVoltagesSim [0x58, 0xad, 7, 1, 9, 2, 11, 3, 13, 4, 0, 0, 0, 219] [] []).getD
        (4 * 0 + 0) 0 =
      ((pollForVoltagesReal [0x58, 0xad, 7, 1, 9, 2, 11, 3, 13, 4, 0, 0, 0, 219] [] []).getD
        (4 * 0 + 0) 0 + 1) % 65536 :=
  sim_adds_one_mod [0x58, 0xad, 7, 1, 9, 2, 11, 3, 13, 4, 0, 0, 0, 219] [] []
    0 0 (by decide) (by decide) (by decide)
